import Mathlib

/-!
Verification of the generation-gating workflow of the pixel-magic front-end.

The model is a shallow embedding of `src/pages/Index.tsx`: the component state
(the `useState` hooks) becomes an explicit record `IndexState`, the external
services (authentication provider, credits ledger, image-generation service)
become an environment record `Env` holding each remote operation's outcome, and
the event handlers `handleGenerate`, `handleResendVerification` and
`handleNextTutorial` become pure functions from state and environment to the
new state together with the ordered trace of observable events (remote calls
issued, toasts shown, console logging, opening the purchase modal).
-/

/-- Strips leading and trailing whitespace, modelling JavaScript
`String.prototype.trim` as used in `prompt.trim()` (Index.tsx lines 142, 389). -/
def jsTrim (s : String) : String :=
  String.mk (((s.data.dropWhile Char.isWhitespace).reverse.dropWhile
    Char.isWhitespace).reverse)

/-- `leadsWith pat l` is true when the list `pat` is an initial segment of `l`. -/
def leadsWith : List Char → List Char → Bool
  | [], _ => true
  | _ :: _, [] => false
  | a :: as, b :: bs => a == b && leadsWith as bs

/-- `occursIn pat l` is true when `pat` occurs as a contiguous segment of `l`. -/
def occursIn (pat : List Char) : List Char → Bool
  | [] => pat.isEmpty
  | c :: cs => leadsWith pat (c :: cs) || occursIn pat cs

/-- Models JavaScript `String.prototype.includes`: `jsIncludes s pat` is true
iff `pat` occurs as a contiguous substring of `s` (Index.tsx lines 227-228). -/
def jsIncludes (s pat : String) : Bool :=
  occursIn pat.data s.data

/-- Modelled from the spec: `GeneratedImage` is declared in
`services/imageService`, which is not among the sources; the spec describes it
as "an identifier, the originating prompt text, a retrievable image reference
(URL), and a creation timestamp", immutable once created. -/
structure GeneratedImage where
  id : String
  prompt : String
  url : String
  timestamp : Nat
deriving Repr, DecidableEq

/-- One step of the tutorial walkthrough: the textual content of an entry of
`tutorialSteps` (Index.tsx lines 29-55); the icon is purely visual and dropped. -/
structure TutorialStep where
  title : String
  description : String
deriving Repr, DecidableEq

/-- The five static tutorial steps (Index.tsx lines 29-55). -/
def tutorialSteps : List TutorialStep :=
  [ { title := "Welcome to Pixel Magic!",
      description := "Generate AI images in seconds. Let us show you how to get started." },
    { title := "Step 1: Sign In",
      description := "Sign in with Google to start generating images and track your credits." },
    { title := "Step 2: Enter a Prompt",
      description := "Describe what you want to see. The AI will create an image based on your prompt." },
    { title := "Step 3: Generate & Download",
      description := "Click generate, then download or share your masterpiece!" },
    { title := "Start Creating Now!",
      description := "Get started with your free credits and join our growing community of creators." } ]

/-- The component state of `Index` (the `useState` hooks, Index.tsx lines 18-27).
`isEmailVerified` is `Option Bool` because the hook starts as `null`. -/
structure IndexState where
  prompt : String
  isGenerating : Bool
  images : List GeneratedImage
  apiKey : String
  isApiKeySet : Bool
  isPurchaseModalOpen : Bool
  isEmailVerified : Option Bool
  isVerificationLoading : Bool
  showTutorial : Bool
  tutorialStep : Nat
deriving Repr, DecidableEq

/-- A value thrown by an awaited remote operation: either an `Error` instance
carrying its message, or any non-`Error` thrown value (JavaScript can throw
anything; the catch block at Index.tsx line 226 tests `error instanceof Error`). -/
inductive Thrown
  | errorMsg (msg : String)
  | nonError
deriving Repr, DecidableEq

/-- The outbound remote operations the component can issue. -/
inductive RemoteCall
  | verifyCheck
  | creditCheck
  | genCall
  | sendVerification
deriving Repr, DecidableEq

/-- An observable event of a handler run, in program order. -/
inductive Event
  | remote (c : RemoteCall)
  | toastError (msg : String)
  | toastSuccess (msg : String)
  | openPurchaseModal
  | consoleError
deriving Repr, DecidableEq

/-- Whether an event is a user-facing toast notice. -/
def Event.isToast : Event → Bool
  | .toastError _ => true
  | .toastSuccess _ => true
  | _ => false

/-- The external world as one generation attempt observes it: the current
identity snapshot (`auth.currentUser`), the settled outcome of the
`Promise.all` over `checkEmailVerified` and `hasEnoughCredits` (Index.tsx
lines 178-181), the outcome of `generateImage`, and the outcome of
`sendVerificationEmail`. A rejected promise is an `Except.error` carrying the
thrown value. -/
structure Env where
  currentUser : Option String
  checksResult : Except Thrown (Bool × Bool)
  genResult : Except Thrown GeneratedImage
  sendResult : Except Thrown Unit

/-- The toasts emitted by the catch block of `handleGenerate` (Index.tsx lines
221-234): a non-`Error` throw is only logged; an `Error` whose message contains
"Insufficient credits" or "Email not verified" is suppressed; every other
`Error` yields the generic failure toast. -/
def catchToasts : Thrown → List Event
  | .nonError => []
  | .errorMsg m =>
      if !(jsIncludes m "Insufficient credits") && !(jsIncludes m "Email not verified") then
        [.toastError "Failed to generate image. Please check your API key and try again."]
      else
        []

/-- Shallow embedding of `handleGenerate` (Index.tsx lines 137-245).
Returns the state after the attempt settles together with the event trace.
`setIsGenerating(true)` at line 161 is visible during the awaits but every
path ends with `setIsGenerating(false)`, so the settled state carries the
final value of each hook. -/
def handleGenerate (s : IndexState) (env : Env) : IndexState × List Event :=
  if s.isGenerating then
    (s, [])
  else if jsTrim s.prompt = "" then
    (s, [.toastError "Please enter a prompt first"])
  else if !s.isApiKeySet then
    (s, [.toastError "Please enter your Together AI API key first or set VITE_TOGETHER_API_KEY environment variable"])
  else
    match env.currentUser with
    | none =>
        ({ s with isGenerating := false },
         [.toastError "Please log in to generate images"])
    | some _ =>
        let checksIssued : List Event := [.remote .verifyCheck, .remote .creditCheck]
        match env.checksResult with
        | .error e =>
            ({ s with isGenerating := false },
             checksIssued ++ [.consoleError] ++ catchToasts e)
        | .ok (verified, hasCredits) =>
            if !verified then
              ({ s with isGenerating := false, isEmailVerified := some verified },
               checksIssued ++
                 [.toastError "Please verify your email before generating images"])
            else if !hasCredits then
              ({ s with isGenerating := false, isEmailVerified := some verified,
                        isPurchaseModalOpen := true },
               checksIssued ++
                 [.toastError "Insufficient credits. Please purchase more to continue.",
                  .openPurchaseModal])
            else
              match env.genResult with
              | .ok newImage =>
                  ({ s with isGenerating := false, isEmailVerified := some verified,
                            images := newImage :: s.images },
                   checksIssued ++
                     [.remote .genCall, .toastSuccess "Image generated successfully!"])
              | .error e =>
                  ({ s with isGenerating := false, isEmailVerified := some verified },
                   checksIssued ++ [.remote .genCall, .consoleError] ++ catchToasts e)

/-- Shallow embedding of `handleResendVerification` (Index.tsx lines 121-135).
The handler itself performs no busy-flag check: it sets
`isVerificationLoading` to true, issues the send when a user is signed in
(logging a rejection), toasts an error otherwise, and the `finally` clause
clears the flag, so the settled state always has the flag false. -/
def handleResendVerification (s : IndexState) (env : Env) : IndexState × List Event :=
  match env.currentUser with
  | some _ =>
      match env.sendResult with
      | .ok _ =>
          ({ s with isVerificationLoading := false }, [.remote .sendVerification])
      | .error _ =>
          ({ s with isVerificationLoading := false },
           [.remote .sendVerification, .consoleError])
  | none =>
      ({ s with isVerificationLoading := false },
       [.toastError "Please log in to resend verification email"])

/-- A click on the "Resend Email" button (Index.tsx lines 270-277): the button
is rendered with `disabled={isVerificationLoading}`, and a disabled button
fires no `onClick`, so the click reaches `handleResendVerification` only when
the busy flag is clear. -/
def resendButtonClick (s : IndexState) (env : Env) : IndexState × List Event :=
  if s.isVerificationLoading then
    (s, [])
  else
    handleResendVerification s env

/-- Shallow embedding of `handleNextTutorial` (Index.tsx lines 247-253). -/
def handleNextTutorial (s : IndexState) : IndexState :=
  if s.tutorialStep < tutorialSteps.length - 1 then
    { s with tutorialStep := s.tutorialStep + 1 }
  else
    { s with showTutorial := false }

/-- A sample artifact, for witnesses. -/
def sampleImage : GeneratedImage :=
  { id := "img-1", prompt := "a red fox in snow",
    url := "https://example.com/fox.png", timestamp := 1700000000 }

/-- A state in which all local checks pass, for witnesses. -/
def readyState : IndexState :=
  { prompt := "a red fox in snow", isGenerating := false, images := [sampleImage],
    apiKey := "key-123", isApiKeySet := true, isPurchaseModalOpen := false,
    isEmailVerified := none, isVerificationLoading := false,
    showTutorial := true, tutorialStep := 0 }

/-- An environment with a signed-in identity and prescribed remote outcomes,
for witnesses. -/
def envWith (cr : Except Thrown (Bool × Bool)) (gr : Except Thrown GeneratedImage) :
    Env :=
  { currentUser := some "uid-1", checksResult := cr, genResult := gr,
    sendResult := .ok () }

example : jsTrim "   " = "" := by decide

example : jsTrim " a " = "a" := by decide

example : jsIncludes "Error: Insufficient credits left" "Insufficient credits" = true := by decide

example : jsIncludes "network down" "Insufficient credits" = false := by decide

/-- C3: invoking generation while the busy flag is set is a no-op: same state,
no events, so no second remote call fires while one attempt is in flight. -/
theorem busy_reentry_noop (s : IndexState) (env : Env)
    (h : s.isGenerating = true) :
    handleGenerate s env = (s, []) := by
  simp [handleGenerate, h]

/-- Witness for `busy_reentry_noop` at a concrete busy state. -/
theorem busy_reentry_noop_witness :
    handleGenerate { readyState with isGenerating := true }
        (envWith (.ok (true, true)) (.ok sampleImage)) =
      ({ readyState with isGenerating := true }, []) :=
  busy_reentry_noop _ _ rfl

/-- C2 as stated is false: with the busy flag set and an empty prompt, the
re-entry guard returns first, so no "missing prompt" rejection is reported. -/
theorem missing_prompt_busy_counterexample :
    jsTrim ({ readyState with prompt := "", isGenerating := true } : IndexState).prompt = "" ∧
    handleGenerate { readyState with prompt := "", isGenerating := true }
        (envWith (.ok (true, true)) (.ok sampleImage)) =
      ({ readyState with prompt := "", isGenerating := true }, []) :=
  ⟨rfl, rfl⟩

/-- C2 (amended): for every empty or whitespace-only prompt, when the busy flag
is clear, invoking generation issues no remote call of any kind, reports
exactly the "missing prompt" rejection, and leaves the state unchanged. -/
theorem missing_prompt_rejection (s : IndexState) (env : Env)
    (hbusy : s.isGenerating = false)
    (hp : jsTrim s.prompt = "") :
    handleGenerate s env = (s, [.toastError "Please enter a prompt first"]) := by
  simp [handleGenerate, hbusy, hp]

/-- Witness for `missing_prompt_rejection` at a whitespace-only prompt. -/
theorem missing_prompt_rejection_witness :
    handleGenerate { readyState with prompt := "   " }
        (envWith (.ok (true, true)) (.ok sampleImage)) =
      ({ readyState with prompt := "   " },
       [.toastError "Please enter a prompt first"]) :=
  missing_prompt_rejection _ _ rfl (by decide)

/-- C4: on every exit path of a generation attempt (success, any rejection, or
a thrown failure in the checks or the generation call) the busy flag is false
when the attempt settles. -/
theorem busy_cleared_on_exit (s : IndexState) (env : Env)
    (h : s.isGenerating = false) :
    (handleGenerate s env).1.isGenerating = false := by
  unfold handleGenerate
  repeat' split
  all_goals simp_all

/-- Witness for `busy_cleared_on_exit` on the success path. -/
theorem busy_cleared_on_exit_witness :
    (handleGenerate readyState (envWith (.ok (true, true)) (.ok sampleImage))).1.isGenerating
      = false :=
  busy_cleared_on_exit _ _ rfl

/-- C1: when the local checks pass and the fetched verified flag is false, the
attempt reports exactly the "unverified email" rejection — never "insufficient
credits" — no generation call is issued, and the purchase flow is not opened,
regardless of the concurrently fetched credit-check value `hc`. -/
theorem unverified_email_precedence (s : IndexState) (env : Env) (u : String)
    (hc : Bool)
    (hbusy : s.isGenerating = false)
    (hp : jsTrim s.prompt ≠ "")
    (hk : s.isApiKeySet = true)
    (hu : env.currentUser = some u)
    (hv : env.checksResult = .ok (false, hc)) :
    handleGenerate s env =
      ({ s with isGenerating := false, isEmailVerified := some false },
       [.remote .verifyCheck, .remote .creditCheck,
        .toastError "Please verify your email before generating images"]) := by
  simp [handleGenerate, hbusy, hp, hk, hu, hv]

/-- Witness for `unverified_email_precedence` with sufficient credits. -/
theorem unverified_email_precedence_witness :
    handleGenerate readyState (envWith (.ok (false, true)) (.ok sampleImage)) =
      ({ readyState with isGenerating := false, isEmailVerified := some false },
       [.remote .verifyCheck, .remote .creditCheck,
        .toastError "Please verify your email before generating images"]) :=
  unverified_email_precedence _ _ "uid-1" true rfl (by decide) rfl rfl rfl

/-- C7: when the local checks pass, the fetched verified flag is true and the
credit check returns false, the attempt reports the "insufficient credits"
rejection, opens the purchase modal with the open-purchase-flow trigger firing
exactly once, and issues no generation call. -/
theorem insufficient_credits_opens_purchase (s : IndexState) (env : Env)
    (u : String)
    (hbusy : s.isGenerating = false)
    (hp : jsTrim s.prompt ≠ "")
    (hk : s.isApiKeySet = true)
    (hu : env.currentUser = some u)
    (hv : env.checksResult = .ok (true, false)) :
    handleGenerate s env =
      ({ s with isGenerating := false, isEmailVerified := some true,
                isPurchaseModalOpen := true },
       [.remote .verifyCheck, .remote .creditCheck,
        .toastError "Insufficient credits. Please purchase more to continue.",
        .openPurchaseModal]) ∧
    (handleGenerate s env).2.count Event.openPurchaseModal = 1 := by
  constructor
  · simp [handleGenerate, hbusy, hp, hk, hu, hv]
  · simp [handleGenerate, hbusy, hp, hk, hu, hv]

/-- Witness for `insufficient_credits_opens_purchase`. -/
theorem insufficient_credits_opens_purchase_witness :
    handleGenerate readyState (envWith (.ok (true, false)) (.ok sampleImage)) =
      ({ readyState with isGenerating := false, isEmailVerified := some true,
                         isPurchaseModalOpen := true },
       [.remote .verifyCheck, .remote .creditCheck,
        .toastError "Insufficient credits. Please purchase more to continue.",
        .openPurchaseModal]) ∧
    (handleGenerate readyState
        (envWith (.ok (true, false)) (.ok sampleImage))).2.count Event.openPurchaseModal = 1 :=
  insufficient_credits_opens_purchase _ _ "uid-1" rfl (by decide) rfl rfl rfl

/-- C5: on a successful generation, the gallery afterwards is exactly the new
artifact prepended to the prior contents: first element the new artifact, the
prior elements unchanged in order and content. -/
theorem gallery_pure_prepend (s : IndexState) (env : Env) (u : String)
    (img : GeneratedImage)
    (hbusy : s.isGenerating = false)
    (hp : jsTrim s.prompt ≠ "")
    (hk : s.isApiKeySet = true)
    (hu : env.currentUser = some u)
    (hv : env.checksResult = .ok (true, true))
    (hg : env.genResult = .ok img) :
    (handleGenerate s env).1.images = img :: s.images := by
  simp [handleGenerate, hbusy, hp, hk, hu, hv, hg]

/-- Witness for `gallery_pure_prepend` over a non-empty prior gallery. -/
theorem gallery_pure_prepend_witness :
    (handleGenerate readyState
        (envWith (.ok (true, true)) (.ok sampleImage))).1.images =
      sampleImage :: readyState.images :=
  gallery_pure_prepend _ _ "uid-1" sampleImage rfl (by decide) rfl rfl rfl rfl

/-- C6: starting at step 0 with the tutorial shown (dismissed=false), four
advances reach step 4 still shown, and a fifth advance dismisses the tutorial
(showTutorial=false, i.e. dismissed=true) while the step stays at 4. -/
theorem tutorial_advance_trajectory (s : IndexState)
    (h0 : s.tutorialStep = 0)
    (hd : s.showTutorial = true) :
    (handleNextTutorial (handleNextTutorial (handleNextTutorial
        (handleNextTutorial s)))).tutorialStep = 4 ∧
    (handleNextTutorial (handleNextTutorial (handleNextTutorial
        (handleNextTutorial s)))).showTutorial = true ∧
    (handleNextTutorial (handleNextTutorial (handleNextTutorial
        (handleNextTutorial (handleNextTutorial s))))).showTutorial = false ∧
    (handleNextTutorial (handleNextTutorial (handleNextTutorial
        (handleNextTutorial (handleNextTutorial s))))).tutorialStep = 4 := by
  simp [handleNextTutorial, tutorialSteps, h0, hd]

/-- Witness for `tutorial_advance_trajectory` at the initial mount state. -/
theorem tutorial_advance_trajectory_witness :
    (handleNextTutorial (handleNextTutorial (handleNextTutorial
        (handleNextTutorial readyState)))).tutorialStep = 4 ∧
    (handleNextTutorial (handleNextTutorial (handleNextTutorial
        (handleNextTutorial readyState)))).showTutorial = true ∧
    (handleNextTutorial (handleNextTutorial (handleNextTutorial
        (handleNextTutorial (handleNextTutorial readyState))))).showTutorial = false ∧
    (handleNextTutorial (handleNextTutorial (handleNextTutorial
        (handleNextTutorial (handleNextTutorial readyState))))).tutorialStep = 4 :=
  tutorial_advance_trajectory readyState rfl rfl

/-- C8: for every `Error` thrown during the remote-check phase or the
generation phase, the user-facing toasts of the attempt are empty when the
message contains "Insufficient credits" or "Email not verified" (suppressed
from duplicate reporting), and exactly the one generic failure notice
otherwise. -/
theorem error_toast_classification (s : IndexState) (env : Env) (u m : String)
    (hbusy : s.isGenerating = false)
    (hp : jsTrim s.prompt ≠ "")
    (hk : s.isApiKeySet = true)
    (hu : env.currentUser = some u)
    (herr : env.checksResult = .error (.errorMsg m) ∨
      (env.checksResult = .ok (true, true) ∧ env.genResult = .error (.errorMsg m))) :
    (handleGenerate s env).2.filter Event.isToast =
      (if jsIncludes m "Insufficient credits" || jsIncludes m "Email not verified"
       then []
       else [.toastError "Failed to generate image. Please check your API key and try again."]) := by
  rcases herr with hv | ⟨hv, hg⟩
  · cases ha : jsIncludes m "Insufficient credits" <;>
      cases hb : jsIncludes m "Email not verified" <;>
      simp [handleGenerate, catchToasts, Event.isToast, hbusy, hp, hk, hu, hv, ha, hb]
  · cases ha : jsIncludes m "Insufficient credits" <;>
      cases hb : jsIncludes m "Email not verified" <;>
      simp [handleGenerate, catchToasts, Event.isToast, hbusy, hp, hk, hu, hv, hg, ha, hb]

/-- Witness for `error_toast_classification`: a generation-phase network error
produces exactly the generic failure toast. -/
theorem error_toast_classification_witness :
    (handleGenerate readyState
        (envWith (.ok (true, true)) (.error (.errorMsg "network down")))).2.filter
      Event.isToast =
      [.toastError "Failed to generate image. Please check your API key and try again."] := by
  rw [error_toast_classification readyState
    (envWith (.ok (true, true)) (.error (.errorMsg "network down"))) "uid-1"
    "network down" rfl (by decide) rfl rfl (Or.inr ⟨rfl, rfl⟩)]
  decide

/-- C10: when the generation call rejects with a non-`Error` thrown value, the
attempt shows no toast at all: the rejection is only logged to the console, the
busy flag is cleared, and the gallery is unchanged. -/
theorem non_error_throw_is_silent (s : IndexState) (env : Env) (u : String)
    (hbusy : s.isGenerating = false)
    (hp : jsTrim s.prompt ≠ "")
    (hk : s.isApiKeySet = true)
    (hu : env.currentUser = some u)
    (hv : env.checksResult = .ok (true, true))
    (hg : env.genResult = .error .nonError) :
    handleGenerate s env =
      ({ s with isGenerating := false, isEmailVerified := some true },
       [.remote .verifyCheck, .remote .creditCheck, .remote .genCall,
        .consoleError]) := by
  simp [handleGenerate, catchToasts, hbusy, hp, hk, hu, hv, hg]

/-- Witness for `non_error_throw_is_silent`. -/
theorem non_error_throw_is_silent_witness :
    handleGenerate readyState (envWith (.ok (true, true)) (.error .nonError)) =
      ({ readyState with isGenerating := false, isEmailVerified := some true },
       [.remote .verifyCheck, .remote .creditCheck, .remote .genCall,
        .consoleError]) :=
  non_error_throw_is_silent _ _ "uid-1" rfl (by decide) rfl rfl rfl rfl

/-- C9 as stated is false: `handleResendVerification` itself performs no
busy-flag check, so invoking the handler while `isVerificationLoading` is true
still issues a send-verification-email call. -/
theorem resend_handler_unguarded_counterexample :
    ({ readyState with isVerificationLoading := true } : IndexState).isVerificationLoading
        = true ∧
    (handleResendVerification { readyState with isVerificationLoading := true }
        (envWith (.ok (true, true)) (.ok sampleImage))).2 =
      [.remote .sendVerification] :=
  ⟨rfl, rfl⟩

/-- C9 (amended): the busy guard lives in the resend button, which is rendered
disabled while `isVerificationLoading` is true, so a resend invoked through the
UI while busy fires no send-verification-email call (the click is a no-op). -/
theorem resend_button_busy_noop (s : IndexState) (env : Env)
    (h : s.isVerificationLoading = true) :
    resendButtonClick s env = (s, []) := by
  simp [resendButtonClick, h]

/-- Witness for `resend_button_busy_noop`. -/
theorem resend_button_busy_noop_witness :
    resendButtonClick { readyState with isVerificationLoading := true }
        (envWith (.ok (true, true)) (.ok sampleImage)) =
      ({ readyState with isVerificationLoading := true }, []) :=
  resend_button_busy_noop _ _ rfl
